import Mathlib

/-!
Verification of the Othentic RNG AVS operator core (Rust sources
`src/operator/src/performer.rs` and `src/operator/src/attester.rs`)
against its natural-language specification.

Shallow embedding conventions:
- Byte sequences (`&[u8]` / `Vec<u8>`) are `List Nat`, each byte reduced `% 256`
  where it is produced.
- The OS entropy source (`rand::rngs::OsRng`) is modelled as an explicit infinite
  byte stream with a read position; `fill_bytes` reads and advances it.
- Fallible Rust functions returning `Result<T, String>` become `Except String T`.
- The external crates `sha2` and `ed25519_dalek` are not part of this repository;
  they are modelled abstractly: SHA-256 as an arbitrary function on byte lists
  (every claim about it here is about which inputs it is applied to, not about
  its internals), and the ed25519 signature scheme as a structure bundling the
  operations with the correctness properties the specification attributes to it.
-/

/-- Byte sequences (`Vec<u8>` / `&[u8]` in the Rust source). -/
abbrev Bytes := List Nat

/-- Model of `rand::rngs::OsRng`: an infinite stream of entropy bytes together
with the current read position. -/
structure OsRng where
  stream : Nat → Nat
  pos : Nat

/-- Model of `RngCore::fill_bytes` on `OsRng`: reads `n` bytes from the entropy
stream at the current position and advances the position by `n`. -/
def OsRng.fill_bytes (rng : OsRng) (n : Nat) : Bytes × OsRng :=
  ((List.range n).map (fun i => rng.stream (rng.pos + i) % 256),
    ⟨rng.stream, rng.pos + n⟩)

/-- `RngPerformer` from `src/operator/src/performer.rs`: holds no state. -/
structure RngPerformer where

/-- `RngPerformer::new` (performer.rs lines 21-23). -/
def RngPerformer.new : RngPerformer := ⟨⟩

/-- `RngPerformer::generate_random_number` (performer.rs lines 37-55): rejects
`length == 0` with an error, otherwise fills a vector of `length` bytes from
`OsRng` and returns it. The entropy source is passed explicitly. -/
def RngPerformer.generate_random_number (_self : RngPerformer) (length : Nat)
    (rng : OsRng) : Except String Bytes × OsRng :=
  if length = 0 then
    (Except.error "Length must be a positive integer.", rng)
  else
    let r := rng.fill_bytes length
    (Except.ok r.1, r.2)

/-- Modelled from the spec: the `ed25519_dalek` crate is external to this
repository. The scheme is abstracted as key-generation, public-key derivation,
signing and verification operations, together with the two properties the
specification attributes to them: a signature made with a signing key verifies
under the paired public key, and verifies under no other public key. -/
structure Ed25519 where
  SigningKey : Type
  VerifyingKey : Type
  Signature : Type
  generate : Bytes → SigningKey
  verifying_key : SigningKey → VerifyingKey
  sign : SigningKey → Bytes → Signature
  verify : VerifyingKey → Bytes → Signature → Except String Unit
  verify_sign_ok : ∀ sk msg, verify (verifying_key sk) msg (sign sk msg) = Except.ok ()
  verify_wrong_key : ∀ sk pk msg, pk ≠ verifying_key sk →
    verify pk msg (sign sk msg) ≠ Except.ok ()

/-- `RngAttester` from `src/operator/src/attester.rs` lines 11-14: a signing
key together with its verifying key. -/
structure RngAttester (E : Ed25519) where
  signing_key : E.SigningKey
  verifying_key : E.VerifyingKey

/-- `RngAttester::new` (attester.rs lines 18-29): generates a fresh signing key
from `OsRng`, derives the verifying key, and unconditionally returns `Ok`.
Key generation in `ed25519_dalek` consumes 32 bytes of entropy. -/
def RngAttester.new (E : Ed25519) (rng : OsRng) :
    Except String (RngAttester E) × OsRng :=
  let r := rng.fill_bytes 32
  let signing_key := E.generate r.1
  (Except.ok { signing_key := signing_key,
               verifying_key := E.verifying_key signing_key }, r.2)

/-- `RngAttester::attest` (attester.rs lines 31-50): draws a fresh 32-byte salt
from `OsRng`, hashes `random_number || salt` with SHA-256, signs the digest
with the signing key, and returns `Ok` of the value, the salt and the
signature. `&self` is an immutable borrow, embedded as explicit state passing
that returns the attester unchanged. -/
def RngAttester.attest (E : Ed25519) (sha256 : Bytes → Bytes)
    (self : RngAttester E) (random_number : Bytes) (rng : OsRng) :
    Except String (Bytes × Bytes × E.Signature) × OsRng × RngAttester E :=
  let r := rng.fill_bytes 32
  let salt := r.1
  let data_to_hash := random_number ++ salt
  let hashed_data := sha256 data_to_hash
  let signature := E.sign self.signing_key hashed_data
  (Except.ok (random_number, salt, signature), r.2, self)

/-- `RngAttester::get_public_key` (attester.rs lines 52-54). -/
def RngAttester.get_public_key (E : Ed25519) (self : RngAttester E) :
    E.VerifyingKey :=
  self.verifying_key

/-- `RngAttester::verify_attestation` (attester.rs lines 57-72): recomputes the
SHA-256 digest of `random_number || salt`, verifies the signature over it under
`public_key`, and maps a library failure to a formatted error string. -/
def RngAttester.verify_attestation (E : Ed25519) (sha256 : Bytes → Bytes)
    (public_key : E.VerifyingKey) (random_number : Bytes) (salt : Bytes)
    (signature : E.Signature) : Except String Unit :=
  let data_to_verify_hash := random_number ++ salt
  let hashed_data_to_verify := sha256 data_to_verify_hash
  match E.verify public_key hashed_data_to_verify signature with
  | Except.ok u => Except.ok u
  | Except.error e => Except.error ("Signature verification failed: " ++ e)

/-- The digest computed and signed inside `attest` (attester.rs lines 41-45):
SHA-256 of the concatenation `random_number || salt`. -/
def attestDigest (sha256 : Bytes → Bytes) (random_number : Bytes)
    (salt : Bytes) : Bytes :=
  let data_to_hash := random_number ++ salt
  sha256 data_to_hash

/-- The digest recomputed inside `verify_attestation` (attester.rs lines
64-68): SHA-256 of the concatenation `random_number || salt`. -/
def verifyDigest (sha256 : Bytes → Bytes) (random_number : Bytes)
    (salt : Bytes) : Bytes :=
  let data_to_verify_hash := random_number ++ salt
  sha256 data_to_verify_hash

/-- A concrete instance of the abstract signature scheme, used only to
instantiate universally quantified theorems on closed inputs: a signature
records the signing key and the message, and verification checks both. -/
def toyEd : Ed25519 where
  SigningKey := Nat
  VerifyingKey := Nat
  Signature := Nat × Bytes
  generate seed := seed.foldl (fun acc b => acc * 256 + b) 0
  verifying_key sk := sk
  sign sk msg := (sk, msg)
  verify pk msg sig :=
    if sig = (pk, msg) then Except.ok () else Except.error "signature error"
  verify_sign_ok := by intro sk msg; simp
  verify_wrong_key := by
    intro sk pk msg hne h
    have hc : ¬ (((sk, msg) : Nat × Bytes) = (pk, msg)) :=
      fun hc => hne (congrArg Prod.fst hc).symm
    simp only [if_neg hc] at h
    exact Except.noConfusion h

/-- A concrete stand-in for the abstract SHA-256 function, used only to
instantiate universally quantified theorems on closed inputs. -/
def toySha (b : Bytes) : Bytes := b

/-- A fixed concrete entropy source for witness instantiations. -/
def rng0 : OsRng := ⟨fun i => i, 0⟩

/-- A fixed concrete attester over `toyEd` for witness instantiations. -/
def toyAtt : RngAttester toyEd :=
  { signing_key := (5 : Nat), verifying_key := (5 : Nat) }

/-- A second concrete attester over `toyEd` with a different key. -/
def toyAtt2 : RngAttester toyEd :=
  { signing_key := (7 : Nat), verifying_key := (7 : Nat) }

/-- Unfolding equation for the result component of `attest`. -/
theorem attest_fst_eq (E : Ed25519) (sha256 : Bytes → Bytes)
    (a : RngAttester E) (v : Bytes) (rng : OsRng) :
    (RngAttester.attest E sha256 a v rng).1 =
      Except.ok (v, (rng.fill_bytes 32).1,
        E.sign a.signing_key (sha256 (v ++ (rng.fill_bytes 32).1))) := rfl

/-- Unfolding equation for `verify_attestation` as a match on the library
verification result. -/
theorem verify_attestation_eq (E : Ed25519) (sha256 : Bytes → Bytes)
    (pk : E.VerifyingKey) (v s : Bytes) (sig : E.Signature) :
    RngAttester.verify_attestation E sha256 pk v s sig =
      match E.verify pk (sha256 (v ++ s)) sig with
      | Except.ok u => Except.ok u
      | Except.error e =>
          Except.error ("Signature verification failed: " ++ e) := rfl

/-- The salt drawn inside `attest` has length 32. -/
theorem fill_bytes_length (rng : OsRng) (n : Nat) :
    (rng.fill_bytes n).1.length = n := by
  simp [OsRng.fill_bytes]

/-- Claim C2: `generate_random_number(length)` returns the invalid-argument
error exactly when `length = 0`; for every `length ≠ 0` it succeeds and the
returned byte vector has exactly `length` bytes. -/
theorem c2_generate_random_number_spec (p : RngPerformer) (length : Nat)
    (rng : OsRng) :
    ((p.generate_random_number length rng).1 =
        Except.error "Length must be a positive integer." ↔ length = 0) ∧
    (length ≠ 0 →
      (p.generate_random_number length rng).1 =
        Except.ok (rng.fill_bytes length).1 ∧
      (rng.fill_bytes length).1.length = length) := by
  unfold RngPerformer.generate_random_number
  by_cases hlen : length = 0
  · subst hlen
    simp
  · simp [hlen, fill_bytes_length]

/-- Witness for C2 at `length = 2` on a concrete entropy stream. -/
theorem c2_generate_random_number_witness :
    (2 : Nat) ≠ 0 ∧
    ((RngPerformer.new.generate_random_number 2 rng0).1 =
        Except.ok (rng0.fill_bytes 2).1 ∧
      (rng0.fill_bytes 2).1.length = 2) :=
  ⟨by decide, (c2_generate_random_number_spec RngPerformer.new 2 rng0).2
    (by decide)⟩

/-- Claim C6: the first component of the tuple returned by `attest` equals the
input value byte for byte; the value is taken by immutable reference and
copied, so it is neither mutated nor consumed (the embedding is a pure
function of the value). -/
theorem c6_attest_returns_value (E : Ed25519) (sha256 : Bytes → Bytes)
    (a : RngAttester E) (v : Bytes) (rng : OsRng) :
    ∃ salt sig,
      (RngAttester.attest E sha256 a v rng).1 = Except.ok (v, salt, sig) :=
  ⟨_, _, rfl⟩

/-- Claim C7: the salt returned by `attest` is exactly the next 32 bytes of
the OS entropy stream: it has length 32, and it does not depend on the value
(calls with the same entropy state and any two values yield the same salt). -/
theorem c7_attest_salt (E : Ed25519) (sha256 : Bytes → Bytes)
    (a : RngAttester E) (v : Bytes) (rng : OsRng) :
    ((RngAttester.attest E sha256 a v rng).1.toOption.map (fun t => t.2.1)) =
      some (rng.fill_bytes 32).1 ∧
    (rng.fill_bytes 32).1.length = 32 ∧
    (∀ v2 : Bytes,
      ((RngAttester.attest E sha256 a v2 rng).1.toOption.map
          (fun t => t.2.1)) =
        ((RngAttester.attest E sha256 a v rng).1.toOption.map
          (fun t => t.2.1))) :=
  ⟨rfl, fill_bytes_length rng 32, fun _ => rfl⟩

/-- Claim C8: `attest` does not mutate the attester: the attester state
returned by the embedded call is the input attester, and in particular its
signing key and verifying key are unchanged. -/
theorem c8_attest_frame (E : Ed25519) (sha256 : Bytes → Bytes)
    (a : RngAttester E) (v : Bytes) (rng : OsRng) :
    (RngAttester.attest E sha256 a v rng).2.2 = a ∧
    ((RngAttester.attest E sha256 a v rng).2.2).signing_key = a.signing_key ∧
    ((RngAttester.attest E sha256 a v rng).2.2).verifying_key =
      a.verifying_key :=
  ⟨rfl, rfl, rfl⟩

/-- Claim C9: `RngAttester::new` never returns an error: for every entropy
state it returns `Ok` of an attester whose verifying key is derived from the
freshly generated signing key. -/
theorem c9_new_never_fails (E : Ed25519) (rng : OsRng) :
    (RngAttester.new E rng).1 =
      Except.ok
        { signing_key := E.generate (rng.fill_bytes 32).1,
          verifying_key :=
            E.verifying_key (E.generate (rng.fill_bytes 32).1) } :=
  rfl

/-- Claim C10: `attest` imposes no length precondition and never errors; on
the empty value it returns `Ok` with the commitment digest being SHA-256 of
the salt alone. -/
theorem c10_attest_total (E : Ed25519) (sha256 : Bytes → Bytes)
    (a : RngAttester E) (rng : OsRng) :
    (∀ v : Bytes, ∃ t, (RngAttester.attest E sha256 a v rng).1 =
      Except.ok t) ∧
    (RngAttester.attest E sha256 a [] rng).1 =
      Except.ok ([], (rng.fill_bytes 32).1,
        E.sign a.signing_key (sha256 (rng.fill_bytes 32).1)) :=
  ⟨fun _ => ⟨_, rfl⟩, rfl⟩

/-- Claim C3: the commitment is a deterministic function of (value, salt):
the digest hashed-and-signed inside `attest` and the digest recomputed inside
`verify_attestation` are both SHA-256 of `value || salt` in that order, the
two computations yield equal digests, `attest` signs exactly `attestDigest`,
and `verify_attestation` checks the signature over exactly `verifyDigest`. -/
theorem c3_commitment_deterministic (E : Ed25519) (sha256 : Bytes → Bytes)
    (a : RngAttester E) (v s : Bytes) (rng : OsRng) :
    attestDigest sha256 v s = sha256 (v ++ s) ∧
    verifyDigest sha256 v s = sha256 (v ++ s) ∧
    attestDigest sha256 v s = verifyDigest sha256 v s ∧
    (RngAttester.attest E sha256 a v rng).1 =
      Except.ok (v, (rng.fill_bytes 32).1,
        E.sign a.signing_key
          (attestDigest sha256 v (rng.fill_bytes 32).1)) ∧
    (∀ pk sig, RngAttester.verify_attestation E sha256 pk v s sig =
      match E.verify pk (verifyDigest sha256 v s) sig with
      | Except.ok u => Except.ok u
      | Except.error e =>
          Except.error ("Signature verification failed: " ++ e)) :=
  ⟨rfl, rfl, rfl, rfl, fun _ _ => rfl⟩

/-- Claim C4: `verify_attestation` succeeds exactly when the library
verification of the signature over the SHA-256 digest of `value || salt`
under the given public key succeeds; when the library fails with reason `e`
it returns the error string formatted from `e` (a total function: it returns
an error value, it does not crash). -/
theorem c4_verify_iff (E : Ed25519) (sha256 : Bytes → Bytes)
    (pk : E.VerifyingKey) (v s : Bytes) (sig : E.Signature) :
    (RngAttester.verify_attestation E sha256 pk v s sig = Except.ok () ↔
      E.verify pk (sha256 (v ++ s)) sig = Except.ok ()) ∧
    (∀ e, E.verify pk (sha256 (v ++ s)) sig = Except.error e →
      RngAttester.verify_attestation E sha256 pk v s sig =
        Except.error ("Signature verification failed: " ++ e)) := by
  rw [verify_attestation_eq]
  cases hv : E.verify pk (sha256 (v ++ s)) sig with
  | ok u => cases u; simp
  | error e0 =>
      constructor
      · simp
      · intro e he
        rw [Except.error.injEq] at he
        rw [he]

/-- Witness for C4 on a concrete failing verification over `toyEd`. -/
theorem c4_verify_iff_witness :
    RngAttester.verify_attestation toyEd toySha (5 : Nat) [1] [2]
      ((5 : Nat), ([9] : Bytes)) =
      Except.error ("Signature verification failed: " ++ "signature error") :=
  (c4_verify_iff toyEd toySha (5 : Nat) [1] [2] ((5 : Nat), ([9] : Bytes))).2
    "signature error" rfl

/-- Claim C1: round-trip validity: for a well-formed attester (verifying key
paired with its signing key, as `new` constructs it) and every value of
length at least 1, verifying the tuple returned by `attest` against that
attester's public key succeeds. -/
theorem c1_round_trip (E : Ed25519) (sha256 : Bytes → Bytes)
    (a : RngAttester E)
    (hwf : a.verifying_key = E.verifying_key a.signing_key)
    (v : Bytes) (_hv : 1 ≤ v.length) (rng : OsRng) :
    ∀ value salt sig,
      (RngAttester.attest E sha256 a v rng).1 =
        Except.ok (value, salt, sig) →
      RngAttester.verify_attestation E sha256
        (RngAttester.get_public_key E a) value salt sig = Except.ok () := by
  intro value salt sig hat
  rw [attest_fst_eq, Except.ok.injEq, Prod.mk.injEq, Prod.mk.injEq] at hat
  obtain ⟨rfl, rfl, rfl⟩ := hat
  rw [verify_attestation_eq]
  simp only [RngAttester.get_public_key]
  rw [hwf, E.verify_sign_ok]

/-- Witness for C1 on concrete toy inputs. -/
theorem c1_round_trip_witness :
    RngAttester.verify_attestation toyEd toySha
      (RngAttester.get_public_key toyEd toyAtt) [1] (rng0.fill_bytes 32).1
      (toyEd.sign toyAtt.signing_key
        (toySha ([1] ++ (rng0.fill_bytes 32).1))) =
      Except.ok () :=
  c1_round_trip toyEd toySha toyAtt rfl [1] (by decide) rng0 [1]
    (rng0.fill_bytes 32).1
    (toyEd.sign toyAtt.signing_key (toySha ([1] ++ (rng0.fill_bytes 32).1)))
    rfl

/-- Claim C5: key binding: a tuple produced by `attest` with one attester's
signing key fails verification against the public key of any attester whose
verifying key is not the one paired with the signer's key. -/
theorem c5_key_binding (E : Ed25519) (sha256 : Bytes → Bytes)
    (a a2 : RngAttester E)
    (hne : RngAttester.get_public_key E a2 ≠ E.verifying_key a.signing_key)
    (v : Bytes) (rng : OsRng) :
    ∀ value salt sig,
      (RngAttester.attest E sha256 a v rng).1 =
        Except.ok (value, salt, sig) →
      ∃ e, RngAttester.verify_attestation E sha256
        (RngAttester.get_public_key E a2) value salt sig =
          Except.error e := by
  intro value salt sig hat
  rw [attest_fst_eq, Except.ok.injEq, Prod.mk.injEq, Prod.mk.injEq] at hat
  obtain ⟨rfl, rfl, rfl⟩ := hat
  rw [verify_attestation_eq]
  cases hv : E.verify (RngAttester.get_public_key E a2)
      (sha256 (v ++ (rng.fill_bytes 32).1))
      (E.sign a.signing_key (sha256 (v ++ (rng.fill_bytes 32).1))) with
  | ok u =>
      cases u
      exact absurd hv (E.verify_wrong_key _ _ _ hne)
  | error e => exact ⟨_, rfl⟩

/-- The two concrete toy attesters hold distinct keys. -/
theorem toy_keys_distinct :
    RngAttester.get_public_key toyEd toyAtt2 ≠
      toyEd.verifying_key toyAtt.signing_key := by
  intro h
  have h2 : (7 : Nat) = 5 := h
  exact absurd h2 (by decide)

/-- Witness for C5: a tuple signed by `toyAtt` verified against `toyAtt2`'s
public key yields the formatted verification error. -/
theorem c5_key_binding_witness :
    RngAttester.verify_attestation toyEd toySha
      (RngAttester.get_public_key toyEd toyAtt2) [1] (rng0.fill_bytes 32).1
      (toyEd.sign toyAtt.signing_key
        (toySha ([1] ++ (rng0.fill_bytes 32).1))) =
      Except.error
        ("Signature verification failed: " ++ "signature error") := by
  have hfail := c5_key_binding toyEd toySha toyAtt toyAtt2
    toy_keys_distinct [1] rng0 [1]
    (rng0.fill_bytes 32).1
    (toyEd.sign toyAtt.signing_key (toySha ([1] ++ (rng0.fill_bytes 32).1)))
    rfl
  obtain ⟨e, he⟩ := hfail
  exact rfl
